import Mathlib

/-!
Verification of the todo-list CRUD controller in `src/components/TodoList.tsx`.

The component holds three pieces of state (`tasks`, `newTask`, `editingId`)
and four handlers (`fetchData`, `handleSubmit`, `handleDelete`, `handleEdit`),
plus an inline cancel-edit button.  Each handler is embedded as a pure
function from the current state and the outcomes of the remote (supabase)
calls it makes, returning the new state together with the list of remote
calls it issued (in order) and the list of toast notifications it emitted
(in order).
-/

namespace TodoList

/-- A persisted task row, as in the `Task` type of `TodoList.tsx`. -/
structure Task where
  id : Int
  title : String
  desc : String
  created_at : String
deriving Repr, DecidableEq

/-- The form draft: the `newTask` state of the component. -/
structure Draft where
  title : String
  desc : String
deriving Repr, DecidableEq

/-- The component's local state: `tasks`, `newTask` and `editingId`
(`useState<number | null>` is embedded as `Option Int`). -/
structure State where
  tasks : List Task
  newTask : Draft
  editingId : Option Int
deriving Repr, DecidableEq

/-- A remote call against the supabase `tasks` table. -/
inductive RemoteCall where
  | list : RemoteCall
  | insert (title desc : String) : RemoteCall
  | update (id : Int) (title desc : String) : RemoteCall
  | delete (id : Int) : RemoteCall
deriving Repr, DecidableEq

/-- Whether a remote call mutates the table (everything except `list`). -/
def RemoteCall.isMutation : RemoteCall → Bool
  | .list => false
  | _ => true

/-- A toast notification, one constructor per `react-toastify` channel used
by the component. -/
inductive Notif where
  | success (msg : String) : Notif
  | error (msg : String) : Notif
  | warn (msg : String) : Notif
  | info (msg : String) : Notif
deriving Repr, DecidableEq

/-- Whether a notification went out on the success channel. -/
def Notif.isSuccess : Notif → Bool
  | .success _ => true
  | _ => false

/-- Whether a notification went out on the error channel. -/
def Notif.isError : Notif → Bool
  | .error _ => true
  | _ => false

/-- JavaScript `String.prototype.trim`: drop leading and trailing
whitespace.  Defined over the character list so it reduces in the kernel. -/
def jsTrim (s : String) : String :=
  String.mk (((s.data.dropWhile Char.isWhitespace).reverse.dropWhile
    Char.isWhitespace).reverse)

/-- JavaScript truthiness of a `number | null` value: `null`, `0` (and `NaN`,
not representable here) are falsy.  This embeds the `if (editingId)` test. -/
def jsTruthy : Option Int → Bool
  | none => false
  | some n => n != 0

/-- Outcome of the supabase `select` call: either an error with a message, or
a possibly-null `data` payload (`Option` models the `data || []` null check). -/
abbrev ListResult := Except String (Option (List Task))

/-- `fetchData` (lines 19-31): select all rows ordered by `created_at`.
On error, toast the error and leave `tasks` alone; otherwise replace
`tasks` wholesale with `data || []`. -/
def fetchData (s : State) (res : ListResult) :
    State × List RemoteCall × List Notif :=
  match res with
  | .error msg =>
      (s, [RemoteCall.list], [Notif.error ("Error fetching tasks: " ++ msg)])
  | .ok d =>
      ({ s with tasks := d.getD [] }, [RemoteCall.list], [])

/-- `handleSubmit` (lines 34-71).  `mutRes` is the outcome of the single
mutation it issues (`some msg` = error), `listRes` the outcome of the
follow-up `fetchData` (only consulted when the mutation succeeded). -/
def handleSubmit (s : State) (mutRes : Option String) (listRes : ListResult) :
    State × List RemoteCall × List Notif :=
  if jsTrim s.newTask.title = "" ∨ jsTrim s.newTask.desc = "" then
    (s, [], [Notif.warn "⚠️ Please fill in both the title and description!"])
  else if jsTruthy s.editingId then
    let eid := s.editingId.getD 0
    match mutRes with
    | some msg =>
        (s, [RemoteCall.update eid s.newTask.title s.newTask.desc],
         [Notif.error ("Error updating task: " ++ msg)])
    | none =>
        let s1 : State :=
          { s with editingId := none, newTask := { title := "", desc := "" } }
        let r := fetchData s1 listRes
        (r.1, RemoteCall.update eid s.newTask.title s.newTask.desc :: r.2.1,
         Notif.success "Task updated successfully!" :: r.2.2)
  else
    match mutRes with
    | some msg =>
        (s, [RemoteCall.insert s.newTask.title s.newTask.desc],
         [Notif.error ("Error inserting task: " ++ msg)])
    | none =>
        let s1 : State := { s with newTask := { title := "", desc := "" } }
        let r := fetchData s1 listRes
        (r.1, RemoteCall.insert s.newTask.title s.newTask.desc :: r.2.1,
         Notif.success "Task added successfully!" :: r.2.2)

/-- `handleDelete` (lines 74-86).  `userConfirm` is the answer to the
blocking `confirm` prompt, `delRes` the outcome of the delete call,
`listRes` the outcome of the follow-up `fetchData`. -/
def handleDelete (s : State) (id : Int) (userConfirm : Bool)
    (delRes : Option String) (listRes : ListResult) :
    State × List RemoteCall × List Notif :=
  if !userConfirm then (s, [], [])
  else
    match delRes with
    | some msg =>
        (s, [RemoteCall.delete id], [Notif.error ("Error deleting task: " ++ msg)])
    | none =>
        let r := fetchData s listRes
        (r.1, RemoteCall.delete id :: r.2.1,
         Notif.info "🗑️ Task deleted successfully!" :: r.2.2)

/-- `handleEdit` (lines 89-92): copy the task's fields into the draft and
record its id in `editingId`.  No remote call, no toast. -/
def handleEdit (s : State) (t : Task) :
    State × List RemoteCall × List Notif :=
  ({ s with newTask := { title := t.title, desc := t.desc },
            editingId := some t.id }, [], [])

/-- The cancel-edit button's `onClick` (lines 147-151): clear `editingId`
and the draft, toast an informational message.  No remote call. -/
def cancelEdit (s : State) :
    State × List RemoteCall × List Notif :=
  ({ s with editingId := none, newTask := { title := "", desc := "" } },
   [], [Notif.info "✏️ Edit cancelled"])

/-- Concrete state used by witnesses: a valid draft editing task 7. -/
def editSevenState : State :=
  { tasks := [], newTask := { title := "a", desc := "b" }, editingId := some 7 }

/-- Concrete state used by witnesses: a valid draft with padded fields in
create mode. -/
def paddedDraftState : State :=
  { tasks := [], newTask := { title := "  a  ", desc := " b " },
    editingId := none }

/-- C1: for every draft whose title or description is empty after trimming,
`handleSubmit` emits exactly one warning notification, issues zero remote
calls, and leaves the whole state (tasks, draft fields, editingId)
unchanged, for any backend outcomes. -/
theorem claim_C1_validation_blocks_submit (s : State) (mutRes : Option String)
    (listRes : ListResult)
    (h : jsTrim s.newTask.title = "" ∨ jsTrim s.newTask.desc = "") :
    handleSubmit s mutRes listRes =
      (s, [], [Notif.warn "⚠️ Please fill in both the title and description!"]) := by
  simp only [handleSubmit, if_pos h]

/-- Witness for C1 at the concrete draft with a whitespace-only title. -/
theorem claim_C1_validation_blocks_submit_witness :
    let s : State := { tasks := [], newTask := { title := "  ", desc := "x" },
                       editingId := none }
    handleSubmit s none (Except.ok none) =
      (s, [], [Notif.warn "⚠️ Please fill in both the title and description!"]) :=
  claim_C1_validation_blocks_submit _ none (Except.ok none) (Or.inl (by decide))

/-- C3: `fetchData` on success replaces `tasks` wholesale with the backend
payload (the empty list when the payload is null), issuing exactly the one
`list` call and no notification; on failure it returns the state unchanged,
still exactly one `list` call (no retry), and exactly one error notification
carrying the backend-provided message. -/
theorem claim_C3_refresh_semantics :
    (∀ (s : State) (d : Option (List Task)),
       fetchData s (Except.ok d) =
         ({ s with tasks := d.getD [] }, [RemoteCall.list], [])) ∧
    (∀ (s : State) (msg : String),
       fetchData s (Except.error msg) =
         (s, [RemoteCall.list], [Notif.error ("Error fetching tasks: " ++ msg)])) :=
  ⟨fun _ _ => rfl, fun _ _ => rfl⟩

/-- C2 as stated is false: the claim reads `editingId` being set (non-null)
as implying an update call, but the source tests `if (editingId)`, which is
JavaScript truthiness — with `editingId = 0` (set, but falsy) a validated
submit issues an `insert`, not an `update`. -/
theorem claim_C2_counterexample :
    let s : State := { tasks := [], newTask := { title := "a", desc := "b" },
                       editingId := some 0 }
    s.editingId ≠ none ∧
    (handleSubmit s none (Except.ok none)).2.1 =
      [RemoteCall.insert "a" "b", RemoteCall.list] := by
  decide

/-- C2 (amended): every validated submit issues exactly one remote mutation,
never both: an `update eid title desc` when `editingId` is truthy (non-null
and nonzero, `eid` its value), and an `insert title desc` when `editingId`
is null or zero. -/
theorem claim_C2_exactly_one_mutation (s : State) (mutRes : Option String)
    (listRes : ListResult)
    (h : ¬(jsTrim s.newTask.title = "" ∨ jsTrim s.newTask.desc = "")) :
    (handleSubmit s mutRes listRes).2.1.filter RemoteCall.isMutation =
      [if jsTruthy s.editingId then
         RemoteCall.update (s.editingId.getD 0) s.newTask.title s.newTask.desc
       else
         RemoteCall.insert s.newTask.title s.newTask.desc] := by
  cases htr : jsTruthy s.editingId <;> cases mutRes <;> cases listRes <;>
    simp [handleSubmit, if_neg h, htr, fetchData, RemoteCall.isMutation]

/-- Witness for C2 (amended): an edit of task 7 with a valid draft issues
exactly the one `update` call. -/
theorem claim_C2_exactly_one_mutation_witness :
    ¬(jsTrim editSevenState.newTask.title = "" ∨
      jsTrim editSevenState.newTask.desc = "") ∧
    (handleSubmit editSevenState none (Except.ok none)).2.1.filter
        RemoteCall.isMutation =
      [RemoteCall.update 7 "a" "b"] :=
  ⟨by decide, by
    have h := claim_C2_exactly_one_mutation editSevenState none
      (Except.ok none) (by decide)
    simpa [editSevenState, jsTruthy] using h⟩

/-- C4 as stated is false: after a successful submit with `editingId = 0`
(set, but falsy in the source's `if (editingId)` test) the code takes the
insert path and never clears `editingId`, so it is still set afterwards. -/
theorem claim_C4_counterexample :
    let s : State := { tasks := [], newTask := { title := "a", desc := "b" },
                       editingId := some 0 }
    s.editingId ≠ none ∧
    (handleSubmit s none (Except.ok none)).2.2.head? =
      some (Notif.success "Task added successfully!") ∧
    (handleSubmit s none (Except.ok none)).1.editingId ≠ none := by
  decide

/-- C4 (amended): after every successful submit a success notification is
reported first, the draft fields are cleared, and a refresh (`list` call)
is issued; `editingId` ends up non-truthy — cleared to null by a successful
update, and left at its previous falsy value (null or 0) by a successful
insert. -/
theorem claim_C4_successful_submit (s : State) (listRes : ListResult)
    (h : ¬(jsTrim s.newTask.title = "" ∨ jsTrim s.newTask.desc = "")) :
    (handleSubmit s none listRes).1.newTask = { title := "", desc := "" } ∧
    (handleSubmit s none listRes).1.editingId =
      (if jsTruthy s.editingId then none else s.editingId) ∧
    jsTruthy (handleSubmit s none listRes).1.editingId = false ∧
    (∃ m, (handleSubmit s none listRes).2.2.head? = some (Notif.success m)) ∧
    RemoteCall.list ∈ (handleSubmit s none listRes).2.1 := by
  cases htr : jsTruthy s.editingId <;> cases listRes <;>
    simp [handleSubmit, if_neg h, htr, fetchData] <;> rfl

/-- Witness for C4 (amended) at a successful update of task 7. -/
theorem claim_C4_successful_submit_witness :
    ¬(jsTrim editSevenState.newTask.title = "" ∨
      jsTrim editSevenState.newTask.desc = "") ∧
    ((handleSubmit editSevenState none (Except.ok none)).1.newTask =
        { title := "", desc := "" } ∧
     (handleSubmit editSevenState none (Except.ok none)).1.editingId =
       (if jsTruthy editSevenState.editingId then none
        else editSevenState.editingId) ∧
     jsTruthy (handleSubmit editSevenState none
       (Except.ok none)).1.editingId = false ∧
     (∃ m, (handleSubmit editSevenState none (Except.ok none)).2.2.head? =
        some (Notif.success m)) ∧
     RemoteCall.list ∈ (handleSubmit editSevenState none
       (Except.ok none)).2.1) :=
  ⟨by decide, claim_C4_successful_submit editSevenState (Except.ok none)
    (by decide)⟩

/-- C5: when the mutation issued by a validated submit fails, the state is
returned untouched (draft fields and `editingId` keep their values, `tasks`
unchanged), no `list` call (refresh) is issued, and exactly one error
notification is emitted. -/
theorem claim_C5_failed_mutation_atomicity (s : State) (msg : String)
    (listRes : ListResult)
    (h : ¬(jsTrim s.newTask.title = "" ∨ jsTrim s.newTask.desc = "")) :
    (handleSubmit s (some msg) listRes).1 = s ∧
    RemoteCall.list ∉ (handleSubmit s (some msg) listRes).2.1 ∧
    (handleSubmit s (some msg) listRes).2.2 =
      [Notif.error ((if jsTruthy s.editingId then "Error updating task: "
                     else "Error inserting task: ") ++ msg)] := by
  cases htr : jsTruthy s.editingId <;>
    simp [handleSubmit, if_neg h, htr]

/-- Witness for C5 at a failed update of task 7. -/
theorem claim_C5_failed_mutation_atomicity_witness :
    ¬(jsTrim editSevenState.newTask.title = "" ∨
      jsTrim editSevenState.newTask.desc = "") ∧
    ((handleSubmit editSevenState (some "boom") (Except.ok none)).1 =
        editSevenState ∧
     RemoteCall.list ∉
       (handleSubmit editSevenState (some "boom") (Except.ok none)).2.1 ∧
     (handleSubmit editSevenState (some "boom") (Except.ok none)).2.2 =
       [Notif.error ((if jsTruthy editSevenState.editingId
                      then "Error updating task: "
                      else "Error inserting task: ") ++ "boom")]) :=
  ⟨by decide, claim_C5_failed_mutation_atomicity editSevenState "boom"
    (Except.ok none) (by decide)⟩

/-- C6 as stated is false: the success notification of a confirmed,
successful delete goes out on the info channel
(`toast.info("🗑️ Task deleted successfully!")`), not on the success
channel. -/
theorem claim_C6_counterexample :
    let s : State := { tasks := [], newTask := { title := "", desc := "" },
                       editingId := none }
    (handleDelete s 5 true none (Except.ok none)).2.1.head? =
      some (RemoteCall.delete 5) ∧
    (handleDelete s 5 true none (Except.ok none)).2.2.filter Notif.isSuccess
      = [] ∧
    (handleDelete s 5 true none (Except.ok none)).2.2 =
      [Notif.info "🗑️ Task deleted successfully!"] := by
  decide

/-- C6 (amended): for a confirmed delete, failure reports one error and
leaves the state (hence `tasks`) unchanged with no refresh; success issues
the delete followed by a refresh (`list` call) and reports via the info
channel with message "🗑️ Task deleted successfully!". -/
theorem claim_C6_confirmed_delete_outcomes :
    (∀ (s : State) (id : Int) (msg : String) (listRes : ListResult),
       handleDelete s id true (some msg) listRes =
         (s, [RemoteCall.delete id],
          [Notif.error ("Error deleting task: " ++ msg)])) ∧
    (∀ (s : State) (id : Int) (listRes : ListResult),
       (handleDelete s id true none listRes).2.1.head? =
         some (RemoteCall.delete id) ∧
       RemoteCall.list ∈ (handleDelete s id true none listRes).2.1 ∧
       (handleDelete s id true none listRes).2.2.head? =
         some (Notif.info "🗑️ Task deleted successfully!")) := by
  refine ⟨fun s id msg listRes => rfl, fun s id listRes => ?_⟩
  cases listRes <;> simp [handleDelete, fetchData]

/-- C7: a `handleDelete` whose confirmation prompt is declined is a
complete no-op: no remote call, no notification, state unchanged. -/
theorem claim_C7_declined_delete_noop (s : State) (id : Int)
    (delRes : Option String) (listRes : ListResult) :
    handleDelete s id false delRes listRes = (s, [], []) :=
  rfl

/-- C8: `handleEdit` followed immediately by the cancel-edit button issues
no remote call at all (so the backend collection is untouched) and restores
the draft to the empty create-mode state. -/
theorem claim_C8_edit_cancel_roundtrip (s : State) (t : Task) :
    (handleEdit s t).2.1 = [] ∧
    (cancelEdit (handleEdit s t).1).2.1 = [] ∧
    (cancelEdit (handleEdit s t).1).1.newTask = { title := "", desc := "" } ∧
    (cancelEdit (handleEdit s t).1).1.editingId = none ∧
    (cancelEdit (handleEdit s t).1).1.tasks = s.tasks :=
  ⟨rfl, rfl, rfl, rfl, rfl⟩

/-- C9: `handleDelete` never touches the draft: for every confirmation
answer and every backend outcome, the draft fields and `editingId` are
exactly what they were — in particular after a successful delete of the
task whose id is currently being edited. -/
theorem claim_C9_delete_preserves_draft (s : State) (id : Int)
    (userConfirm : Bool) (delRes : Option String) (listRes : ListResult) :
    (handleDelete s id userConfirm delRes listRes).1.newTask = s.newTask ∧
    (handleDelete s id userConfirm delRes listRes).1.editingId = s.editingId := by
  cases userConfirm with
  | false => exact ⟨rfl, rfl⟩
  | true =>
      cases delRes with
      | some msg => exact ⟨rfl, rfl⟩
      | none =>
          cases listRes with
          | error msg => exact ⟨rfl, rfl⟩
          | ok d => exact ⟨rfl, rfl⟩

/-- C10: trimming is only a validation device — the mutation issued by a
validated submit carries the draft's exact untrimmed `title` and `desc`
strings, so leading/trailing whitespace is persisted verbatim. -/
theorem claim_C10_untrimmed_values_sent (s : State) (mutRes : Option String)
    (listRes : ListResult)
    (h : ¬(jsTrim s.newTask.title = "" ∨ jsTrim s.newTask.desc = "")) :
    (handleSubmit s mutRes listRes).2.1.head? =
      some (if jsTruthy s.editingId then
              RemoteCall.update (s.editingId.getD 0) s.newTask.title
                s.newTask.desc
            else
              RemoteCall.insert s.newTask.title s.newTask.desc) := by
  cases htr : jsTruthy s.editingId <;> cases mutRes <;> cases listRes <;>
    simp [handleSubmit, if_neg h, htr, fetchData]

/-- Witness for C10: a draft with padded fields is inserted with the
whitespace intact. -/
theorem claim_C10_untrimmed_values_sent_witness :
    ¬(jsTrim paddedDraftState.newTask.title = "" ∨
      jsTrim paddedDraftState.newTask.desc = "") ∧
    (handleSubmit paddedDraftState none (Except.ok none)).2.1.head? =
      some (RemoteCall.insert "  a  " " b ") :=
  ⟨by decide, by
    have h := claim_C10_untrimmed_values_sent paddedDraftState none
      (Except.ok none) (by decide)
    simpa [paddedDraftState, jsTruthy] using h⟩

end TodoList
